import Mathlib

/-!
Verification of the device-management core of `fastboot_toolbox.py`
(`AndroidDeviceManager` and its helpers).

The external world (the `adb`/`fastboot` binaries reached through
`run_command`, and the filesystem reached through `os.path.exists` /
`open`) is modelled by an explicit environment `Env`.  A call of
`run_command` that raises (timeout, missing binary, nonzero exit with
`check=True`) is modelled by `Env.run` returning `none`; a completed
process is `some` of its return code and captured stdout.  Every
operation returns, besides its Python return value and the updated
manager state, the list of argv vectors passed to `run_command`, in
order, so that "the command was (not) issued" is a statement about that
trace.

String helpers mirror the Python string methods used by the source
(`strip`, `split(c)`, `in`, `lower`, `os.path.splitext`, `int(s, 16)`),
restricted to ASCII data, and are written structurally over `List Char`
so that they evaluate by `decide`.
-/

/-- Split a character list on a separator character, mirroring Python
`str.split(sep)` for a one-character separator. -/
def chSplit (sep : Char) : List Char → List (List Char)
  | [] => [[]]
  | c :: rest =>
    let r := chSplit sep rest
    if c = sep then [] :: r
    else
      match r with
      | [] => [[c]]
      | g :: gs => (c :: g) :: gs

/-- Split a string on a one-character separator, as Python `s.split(c)`. -/
def strSplit (s : String) (sep : Char) : List String :=
  (chSplit sep s.data).map String.mk

/-- The ASCII whitespace removed by Python `str.strip()`. -/
def isPyWhitespace (c : Char) : Bool :=
  c = ' ' || c = '\t' || c = '\n' || c = '\r' || c = '\x0b' || c = '\x0c'

/-- Python `str.strip()` (ASCII whitespace). -/
def pyStrip (s : String) : String :=
  String.mk (((s.data.dropWhile isPyWhitespace).reverse.dropWhile isPyWhitespace).reverse)

/-- Test whether the first list is an initial segment of the second. -/
def listPref : List Char → List Char → Bool
  | [], _ => true
  | _ :: _, [] => false
  | a :: as, b :: bs => if a = b then listPref as bs else false

/-- Does `small` occur as a contiguous sublist of the second argument? -/
def hasSublist (small : List Char) : List Char → Bool
  | [] => small.isEmpty
  | c :: rest => listPref small (c :: rest) || hasSublist small rest

/-- Python `needle in hay` on strings. -/
def pyIn (needle hay : String) : Bool :=
  hasSublist needle.data hay.data

/-- Python `c in s` for a single character. -/
def hasChar (s : String) (c : Char) : Bool :=
  s.data.any (fun d => d = c)

/-- ASCII lower-casing, enough for the `'dynamic' in out.lower()` style
checks the source performs on tool output. -/
def asciiLower (c : Char) : Char :=
  if 'A' ≤ c ∧ c ≤ 'Z' then Char.ofNat (c.toNat + 32) else c

/-- Python `str.lower()` on ASCII data. -/
def strLower (s : String) : String :=
  String.mk (s.data.map asciiLower)

/-- Python `s.split(':')[-1]`: the last colon-separated field (the whole
string when there is no colon). -/
def splitColonLast (s : String) : String :=
  String.mk ((chSplit ':' s.data).getLastD [])

/-- Python `s.strip('_')`: remove leading and trailing underscores. -/
def stripUnderscores (s : String) : String :=
  String.mk (((s.data.dropWhile (fun c => c = '_')).reverse.dropWhile (fun c => c = '_')).reverse)

/-- Value of one hexadecimal digit. -/
def hexVal (c : Char) : Option Nat :=
  if '0' ≤ c ∧ c ≤ '9' then some (c.toNat - '0'.toNat)
  else if 'a' ≤ c ∧ c ≤ 'f' then some (c.toNat - 'a'.toNat + 10)
  else if 'A' ≤ c ∧ c ≤ 'F' then some (c.toNat - 'A'.toNat + 10)
  else none

/-- Accumulate hexadecimal digits; `none` on the first non-digit. -/
def hexAcc (acc : Nat) : List Char → Option Nat
  | [] => some acc
  | c :: rest =>
    match hexVal c with
    | some v => hexAcc (16 * acc + v) rest
    | none => none

/-- Digits of a hexadecimal numeral after the optional `0x` marker. -/
def parseHexNat (cs : List Char) : Option Nat :=
  let body :=
    match cs with
    | '0' :: 'x' :: rest => rest
    | '0' :: 'X' :: rest => rest
    | other => other
  match body with
  | [] => none
  | _ => hexAcc 0 body

/-- Python `int(s, 16)` on an already-stripped string: optional sign,
optional `0x`, then at least one hex digit; `none` models the
`ValueError` raised on anything else (digit-group underscores are not
used by the partition-size strings this is applied to). -/
def parseHexInt (s : String) : Option Int :=
  match s.data with
  | '+' :: rest => (parseHexNat rest).map Int.ofNat
  | '-' :: rest => (parseHexNat rest).map (fun n => -(n : Int))
  | cs => (parseHexNat cs).map Int.ofNat

/-- Basename of a path: the part after the last `/`. -/
def afterLastSlash (cs : List Char) : List Char :=
  (chSplit '/' cs).getLastD []

/-- Extension part of `os.path.splitext` applied to a basename whose
leading dots have been removed. -/
def extOfBase (rest : List Char) : List Char :=
  let rev := rest.reverse
  let tailPart := rev.takeWhile (fun c => ¬ (c = '.'))
  let remainder := rev.dropWhile (fun c => ¬ (c = '.'))
  match remainder with
  | '.' :: _ => '.' :: tailPart.reverse
  | _ => []

/-- Python `os.path.splitext(filepath)[1].lower()`. -/
def pyExtLower (s : String) : String :=
  String.mk ((extOfBase ((afterLastSlash s.data).dropWhile (fun c => c = '.'))).map asciiLower)

/-! ## Data model (the dataclasses and enums of the source) -/

/-- The `DeviceState` enum. -/
inductive DeviceState where
  | DISCONNECTED
  | BOOTLOADER
  | FASTBOOT
  | ADB
  | RECOVERY
  | SIDELOAD
  | SYSTEM
deriving DecidableEq

/-- The `SlotInfo` enum. -/
inductive SlotInfo where
  | A
  | B
  | UNKNOWN
deriving DecidableEq

/-- Value string of a slot, as `SlotInfo(...).value`. -/
def slotValue : SlotInfo → String
  | SlotInfo.A => "a"
  | SlotInfo.B => "b"
  | SlotInfo.UNKNOWN => "unknown"

/-- Lookup `SlotInfo(s)` for the strings the enum defines; `none` models
the `ValueError` Python raises on any other string. -/
def slotOfString (s : String) : Option SlotInfo :=
  if s = "a" then some SlotInfo.A
  else if s = "b" then some SlotInfo.B
  else if s = "unknown" then some SlotInfo.UNKNOWN
  else none

/-- The `DeviceInfo` dataclass. -/
structure DeviceInfo where
  serial : String
  state : DeviceState
  product : String
  model : String
  device : String
  bootloader_version : String
  baseband_version : String
  secure_boot : Bool
  unlocked : Bool
  slot_current : SlotInfo
  slot_suffix : String
  is_ab : Bool
  dynamic_partitions : Bool
  super_partition_size : Nat
deriving DecidableEq

/-- Construct `DeviceInfo(serial=serial, state=state)` with the dataclass
defaults. -/
def mkDeviceInfo (serial : String) (state : DeviceState) : DeviceInfo :=
  ⟨serial, state, "", "", "", "", "", false, false, SlotInfo.UNKNOWN, "", false, false, 0⟩

/-- The mutable fields of `AndroidDeviceManager` that the device logic
reads and writes (`device_info`, `connected`); the log file and the
operation queue are write-only decoration and are not modelled. -/
structure ManagerState where
  device_info : Option DeviceInfo
  connected : Bool
deriving DecidableEq

/-- State installed by `AndroidDeviceManager.__init__`. -/
def initState : ManagerState :=
  { device_info := none, connected := false }

/-- Completed process as seen by the source: return code and stdout. -/
structure CmdResult where
  returncode : Int
  stdout : String
deriving DecidableEq

/-- The external world: `run` is `run_command` (`none` = the call raised:
timeout, missing binary, …); `fileExists` is `os.path.exists` /
`Path.exists`; `fileHeader` is the first eight bytes read by
`validate_image_file`. -/
structure Env where
  run : List String → Option CmdResult
  fileExists : String → Bool
  fileHeader : String → List Nat

/-- A command trace: the argv vectors handed to `run_command`, in order. -/
abbrev Trace := List (List String)

/-- One step of a multi-step procedure: reads the manager state, returns
the step's boolean outcome, the updated state, and the issued commands. -/
abbrev Step := ManagerState → Bool × ManagerState × Trace

/-! ## `validate_image_file` -/

/-- Image validation, `validate_image_file` (lines 219–245): magic-byte
signatures for
sparse/boot images, extension allow-list, gzip magic.  Defined in the
source but — as proved below — never consulted by `flash_partition`. -/
def validate_image_file (env : Env) (filepath : String) : Bool :=
  if env.fileExists filepath = false then false
  else
    let header := env.fileHeader filepath
    if header.take 4 = [0x3A, 0xFF, 0x26, 0xED] then true
    else if header.take 8 = [0x41, 0x4E, 0x44, 0x52, 0x4F, 0x49, 0x44, 0x21] then true
    else if pyExtLower filepath = ".img" ∨ pyExtLower filepath = ".bin" ∨ pyExtLower filepath = ".mbn" then true
    else if header.take 2 = [0x1F, 0x8B] then true
    else false

/-! ## Device detection (`detect_device` and the populate helpers) -/

/-- Field extractor `result.stdout.strip().split(':')[-1].strip()`
applied to every `fastboot getvar` output. -/
def getvarField (r : CmdResult) : String :=
  pyStrip (splitColonLast (pyStrip r.stdout))

/-- Population step `_populate_fastboot_info`: five sequential
`fastboot getvar` calls,
each guarded by its return code; a raising call aborts the rest (the
method's own `except` swallows the exception), keeping the updates made
so far. -/
def populateFastbootInfo (env : Env) (di : DeviceInfo) : DeviceInfo × Trace :=
  let c1 := ["fastboot", "getvar", "product"]
  match env.run c1 with
  | none => (di, [c1])
  | some r1 =>
    let di := if r1.returncode = 0 then { di with product := getvarField r1 } else di
    let c2 := ["fastboot", "getvar", "model"]
    match env.run c2 with
    | none => (di, [c1, c2])
    | some r2 =>
      let di := if r2.returncode = 0 then { di with model := getvarField r2 } else di
      let c3 := ["fastboot", "getvar", "current-slot"]
      match env.run c3 with
      | none => (di, [c1, c2, c3])
      | some r3 =>
        let di :=
          if r3.returncode = 0 then
            let slot := getvarField r3
            if slot = "a" ∨ slot = "b" then
              { di with
                  slot_current := if slot = "a" then SlotInfo.A else SlotInfo.B,
                  slot_suffix := "_" ++ slot,
                  is_ab := true }
            else di
          else di
        let c4 := ["fastboot", "getvar", "partition-type:system"]
        match env.run c4 with
        | none => (di, [c1, c2, c3, c4])
        | some r4 =>
          let di :=
            if r4.returncode = 0 ∧ pyIn "dynamic" (strLower r4.stdout) = true then
              { di with dynamic_partitions := true }
            else di
          let c5 := ["fastboot", "getvar", "unlocked"]
          match env.run c5 with
          | none => (di, [c1, c2, c3, c4, c5])
          | some r5 =>
            let di :=
              if r5.returncode = 0 then { di with unlocked := pyIn "yes" (strLower r5.stdout) }
              else di
            (di, [c1, c2, c3, c4, c5])

/-- Per-property update of `_populate_adb_info`'s loop body; the boolean
is true when the body raised (`SlotInfo(value.strip('_'))` on an
unrecognised suffix), in which case the partial updates made before the
raise are kept. -/
def applyAdbProp (di : DeviceInfo) (prop value : String) : DeviceInfo × Bool :=
  if pyIn "slot_suffix" prop = true ∧ value ≠ "" then
    let di := { di with slot_suffix := value, is_ab := true }
    match slotOfString (stripUnderscores value) with
    | none => (di, true)
    | some sc => (applyAdbPropRest { di with slot_current := sc } prop value, false)
  else
    (applyAdbPropRest di prop value, false)
where
  /-- The remaining (mutually exclusive) property checks of the body. -/
  applyAdbPropRest (di : DeviceInfo) (prop value : String) : DeviceInfo :=
    let di := if pyIn "dynamic_partitions" prop = true then { di with dynamic_partitions := value = "true" } else di
    let di := if pyIn "verifiedbootstate" prop = true then { di with secure_boot := value ≠ "orange" } else di
    let di := if pyIn "product.device" prop = true then { di with device := value } else di
    let di := if pyIn "product.model" prop = true then { di with model := value } else di
    let di := if pyIn "product.name" prop = true then { di with product := value } else di
    di

/-- The property list of `_populate_adb_info`. -/
def adbProps : List String :=
  ["ro.product.device", "ro.product.model", "ro.product.name",
   "ro.boot.slot_suffix", "ro.boot.dynamic_partitions", "ro.boot.verifiedbootstate"]

/-- The `getprop` loop of `_populate_adb_info`; a raising call (or the
`ValueError` of an unknown slot suffix) stops the loop, keeping earlier
updates, because the surrounding `except` is outside the loop. -/
def adbPropLoop (env : Env) (di : DeviceInfo) : List String → DeviceInfo × Trace
  | [] => (di, [])
  | prop :: rest =>
    let cmd := ["adb", "shell", "getprop " ++ prop]
    match env.run cmd with
    | none => (di, [cmd])
    | some r =>
      if r.returncode = 0 ∧ pyStrip r.stdout ≠ "" then
        match applyAdbProp di prop (pyStrip r.stdout) with
        | (di1, true) => (di1, [cmd])
        | (di1, false) =>
          let (di2, tr) := adbPropLoop env di1 rest
          (di2, cmd :: tr)
      else
        let (di2, tr) := adbPropLoop env di rest
        (di2, cmd :: tr)

/-- Population step `_populate_adb_info`. -/
def populateAdbInfo (env : Env) (di : DeviceInfo) : DeviceInfo × Trace :=
  adbPropLoop env di adbProps

/-- First line containing `needle`, as the `for line in lines` scans of
`detect_device`. -/
def findLineWith (needle : String) : List String → Option String
  | [] => none
  | l :: ls => if pyIn needle l = true then some l else findLineWith needle ls

/-- The session state written by `detect_device`'s failure path. -/
def clearedState (st : ManagerState) : ManagerState :=
  { st with connected := false, device_info := none }

/-- The ADB half of `detect_device`: runs `adb devices`, skips the header
line, and takes the first `\tdevice` entry. -/
def detectAdbPhase (env : Env) (st : ManagerState) (tr : Trace) : Bool × ManagerState × Trace :=
  let cmd := ["adb", "devices"]
  match env.run cmd with
  | none => (false, clearedState st, tr ++ [cmd])
  | some r =>
    let s := pyStrip r.stdout
    if s ≠ "" then
      match findLineWith "\tdevice" ((strSplit s '\n').drop 1) with
      | some line =>
        let serial := (strSplit line '\t').headD ""
        let (di, trP) := populateAdbInfo env (mkDeviceInfo serial DeviceState.ADB)
        (true, { st with device_info := some di, connected := true }, tr ++ [cmd] ++ trP)
      | none => (false, clearedState st, tr ++ [cmd])
    else (false, clearedState st, tr ++ [cmd])

/-- Detection, `detect_device` (lines 328–366): probe fastboot, then
ADB; on success
replace `device_info` and set `connected`; on any failure (no match, or a
raising probe) clear both. -/
def detectDevice (env : Env) (st : ManagerState) : Bool × ManagerState × Trace :=
  let cmd := ["fastboot", "devices"]
  match env.run cmd with
  | none => (false, clearedState st, [cmd])
  | some r =>
    let s := pyStrip r.stdout
    if s ≠ "" then
      match findLineWith "\tfastboot" (strSplit s '\n') with
      | some line =>
        let serial := (strSplit line '\t').headD ""
        let (di, trP) := populateFastbootInfo env (mkDeviceInfo serial DeviceState.FASTBOOT)
        (true, { st with device_info := some di, connected := true }, [cmd] ++ trP)
      | none => detectAdbPhase env st [cmd]
    else detectAdbPhase env st [cmd]

/-! ## Reboot -/

/-- Issue one reboot command and, when it does not raise, fall through to
the `detect_device` re-probe (the 5-second sleep is dropped). -/
def rebootIssue (env : Env) (st : ManagerState) (cmd : List String) : Bool × ManagerState × Trace :=
  match env.run cmd with
  | none => (false, st, [cmd])
  | some _ =>
    match detectDevice env st with
    | (ok, st1, tr) => (ok, st1, cmd :: tr)

/-- Reboot, `reboot_to` (lines 451–475).  `device_info` is dereferenced
only in
the `bootloader` branch; there, a missing identity raises inside the
`try` and the handler returns `False` with no command issued. -/
def reboot_to (env : Env) (st : ManagerState) (target : String) : Bool × ManagerState × Trace :=
  if st.connected = false then (false, st, [])
  else if target = "bootloader" then
    match st.device_info with
    | none => (false, st, [])
    | some di =>
      if di.state = DeviceState.ADB then rebootIssue env st ["adb", "reboot", "bootloader"]
      else if di.state = DeviceState.FASTBOOT then rebootIssue env st ["fastboot", "reboot-bootloader"]
      else detectDevice env st
  else if target = "recovery" then rebootIssue env st ["adb", "reboot", "recovery"]
  else if target = "fastbootd" then rebootIssue env st ["fastboot", "reboot", "fastboot"]
  else if target = "system" then rebootIssue env st ["fastboot", "reboot"]
  else detectDevice env st

/-! ## Flashing, erasing, formatting -/

/-- The partition-name computation of `flash_partition` (lines 490–495):
the slot suffix is appended only when an explicit slot was passed AND the
device is A/B; the dynamic-partition branch leaves the name unchanged, as
does the fall-through. -/
def resolvePartName (di : DeviceInfo) (partition : String) (slot : SlotInfo) : String :=
  if slot ≠ SlotInfo.UNKNOWN ∧ di.is_ab = true then partition ++ "_" ++ slotValue slot
  else if di.dynamic_partitions = true ∧ partition ∈ (["system", "vendor", "product"] : List String) then partition
  else partition

/-- Flashing, `flash_partition` (lines 477–523).  The guard line
dereferences
`device_info` after the `connected` short-circuit; a connected state with
no identity would raise there (ruled out by the session invariant) and is
modelled as failure with no command. -/
def flash_partition (env : Env) (st : ManagerState) (partition image_path : String)
    (slot : SlotInfo) (verify : Bool) : Bool × ManagerState × Trace :=
  if st.connected = false then (false, st, [])
  else
    match st.device_info with
    | none => (false, st, [])
    | some di =>
      if di.state ≠ DeviceState.FASTBOOT then (false, st, [])
      else if env.fileExists image_path = false then (false, st, [])
      else
        let cmd := ["fastboot", "flash", resolvePartName di partition slot, image_path]
        match env.run cmd with
        | none => (false, st, [cmd])
        | some r =>
          if r.returncode ≠ 0 then (false, st, [cmd])
          else if verify = true then
            match detectDevice env st with
            | (ok, st1, tr) =>
              if ok = false then (false, st1, cmd :: tr)
              else (true, st1, cmd :: tr)
          else (true, st, [cmd])

/-- Wrapper `flash_recovery`. -/
def flash_recovery (env : Env) (st : ManagerState) (recovery_img : String) : Bool × ManagerState × Trace :=
  flash_partition env st "recovery" recovery_img SlotInfo.UNKNOWN true

/-- The slot selection shared by `flash_system`/`flash_boot`/`flash_vendor`:
`device_info.slot_current if is_ab else UNKNOWN`.  The attribute access
would raise when no identity is held; modelled as failure with no command. -/
def flashWithCurrentSlot (env : Env) (st : ManagerState) (partition img : String) : Bool × ManagerState × Trace :=
  match st.device_info with
  | none => (false, st, [])
  | some di =>
    flash_partition env st partition img (if di.is_ab then di.slot_current else SlotInfo.UNKNOWN) true

/-- Wrapper `flash_system`. -/
def flash_system (env : Env) (st : ManagerState) (img : String) : Bool × ManagerState × Trace :=
  flashWithCurrentSlot env st "system" img

/-- Wrapper `flash_boot`. -/
def flash_boot (env : Env) (st : ManagerState) (img : String) : Bool × ManagerState × Trace :=
  flashWithCurrentSlot env st "boot" img

/-- Wrapper `flash_vendor`. -/
def flash_vendor (env : Env) (st : ManagerState) (img : String) : Bool × ManagerState × Trace :=
  flashWithCurrentSlot env st "vendor" img

/-- Erasing, `erase_partition` (lines 544–563). -/
def erase_partition (env : Env) (st : ManagerState) (partition : String) : Bool × ManagerState × Trace :=
  if st.connected = false then (false, st, [])
  else
    match st.device_info with
    | none => (false, st, [])
    | some di =>
      if di.state ≠ DeviceState.FASTBOOT then (false, st, [])
      else
        let cmd := ["fastboot", "erase", partition]
        match env.run cmd with
        | none => (false, st, [cmd])
        | some r => (if r.returncode = 0 then true else false, st, [cmd])

/-- Formatting, `format_partition` (lines 565–584). -/
def format_partition (env : Env) (st : ManagerState) (partition fs_type : String) : Bool × ManagerState × Trace :=
  if st.connected = false then (false, st, [])
  else
    match st.device_info with
    | none => (false, st, [])
    | some di =>
      if di.state ≠ DeviceState.FASTBOOT then (false, st, [])
      else
        let cmd := ["fastboot", "format", "--" ++ fs_type, partition]
        match env.run cmd with
        | none => (false, st, [cmd])
        | some r => (if r.returncode = 0 then true else false, st, [cmd])

/-! ## The unbrick procedure -/

/-- Unbrick step `_unlock_critical`. -/
def unlock_critical (env : Env) (st : ManagerState) : Bool × ManagerState × Trace :=
  let cmd := ["fastboot", "flashing", "unlock_critical"]
  match env.run cmd with
  | none => (false, st, [cmd])
  | some r => (if r.returncode = 0 then true else false, st, [cmd])

/-- The fixed partition set of `_erase_corrupt_partitions`. -/
def partitions_to_erase : List String :=
  ["boot", "recovery", "system", "vendor", "cache", "metadata"]

/-- The `for` loop of `_erase_corrupt_partitions`: every partition is
attempted; a failure only clears the running `success` flag. -/
def eraseCorruptLoop (env : Env) : List String → Bool → ManagerState → Bool × ManagerState × Trace
  | [], success, st => (success, st, [])
  | p :: rest, success, st =>
    match erase_partition env st p with
    | (ok, st1, tr1) =>
      match eraseCorruptLoop env rest (success && ok) st1 with
      | (r, st2, tr2) => (r, st2, tr1 ++ tr2)

/-- Unbrick step `_erase_corrupt_partitions` (lines 670–681). -/
def erase_corrupt_partitions (env : Env) (st : ManagerState) : Bool × ManagerState × Trace :=
  eraseCorruptLoop env partitions_to_erase true st

/-- The stock-image table of `_flash_stock_images`, in dict insertion
order. -/
def stockImages : List (String × String) :=
  [("boot", "/storage/emulated/0/Download/boot.img"),
   ("system", "/storage/emulated/0/Download/system.img"),
   ("vendor", "/storage/emulated/0/Download/vendor.img"),
   ("recovery", "/storage/emulated/0/Download/recovery.img")]

/-- The loop of `_flash_stock_images`: images that are absent are skipped
silently; a failed flash only clears the running `success` flag. -/
def flashStockLoop (env : Env) : List (String × String) → Bool → ManagerState → Bool × ManagerState × Trace
  | [], success, st => (success, st, [])
  | (p, path) :: rest, success, st =>
    if env.fileExists path = true then
      match flash_partition env st p path SlotInfo.UNKNOWN true with
      | (ok, st1, tr1) =>
        match flashStockLoop env rest (success && ok) st1 with
        | (r, st2, tr2) => (r, st2, tr1 ++ tr2)
    else flashStockLoop env rest success st

/-- Unbrick step `_flash_stock_images` (lines 683–701). -/
def flash_stock_images (env : Env) (st : ManagerState) : Bool × ManagerState × Trace :=
  flashStockLoop env stockImages true st

/-- The `for step_name, step_func in steps` loop of `unbrick_device`:
run the steps in order, stopping with `False` at the first step that
returns `False` (the 2-second inter-step sleep is dropped). -/
def runSteps : List Step → ManagerState → Bool × ManagerState × Trace
  | [], st => (true, st, [])
  | f :: rest, st =>
    match f st with
    | (true, st1, tr1) =>
      match runSteps rest st1 with
      | (ok, st2, tr2) => (ok, st2, tr1 ++ tr2)
    | (false, st1, tr1) => (false, st1, tr1)

/-- The step list of `unbrick_device` (lines 642–650). -/
def unbrickSteps (env : Env) : List Step :=
  [fun st => detectDevice env st,
   fun st => reboot_to env st "bootloader",
   fun st => unlock_critical env st,
   fun st => erase_corrupt_partitions env st,
   fun st => flash_stock_images env st,
   fun st => format_partition env st "userdata" "ext4",
   fun st => reboot_to env st "system"]

/-- Procedure `unbrick_device` (lines 638–660). -/
def unbrick_device (env : Env) (st : ManagerState) : Bool × ManagerState × Trace :=
  runSteps (unbrickSteps env) st

/-! ## Backup -/

/-- The backup set of `backup_partitions`. -/
def backupList : List String :=
  ["boot", "recovery", "dtbo", "vbmeta", "super"]

/-- One iteration of the `backup_partitions` loop, as the commands it
issues: `fastboot getvar partition-size:p`, and `fastboot fetch` only
when the getvar completed with code 0, its stripped stdout has a colon,
and the size field parses as a hexadecimal integer.  All failures are
swallowed by the loop's `try`/`except ...: continue`. -/
def backupOne (env : Env) (backup_dir p : String) : Trace :=
  let gv := ["fastboot", "getvar", "partition-size:" ++ p]
  match env.run gv with
  | none => [gv]
  | some r =>
    if r.returncode = 0 then
      let size_line := pyStrip r.stdout
      if hasChar size_line ':' = true then
        match parseHexInt (pyStrip (splitColonLast size_line)) with
        | some _ =>
          let fetch := ["fastboot", "fetch", p, backup_dir ++ "/" ++ p ++ ".img"]
          let _ := env.run fetch
          [gv, fetch]
        | none => [gv]
      else [gv]
    else [gv]

/-- Backup, `backup_partitions` (lines 703–751): after the mode gate it
loops
over the fixed partition set and returns `True` unconditionally. -/
def backup_partitions (env : Env) (st : ManagerState) (backup_dir : String) : Bool × ManagerState × Trace :=
  if st.connected = false then (false, st, [])
  else
    match st.device_info with
    | none => (false, st, [])
    | some di =>
      if di.state ≠ DeviceState.FASTBOOT then (false, st, [])
      else (true, st, (backupList.map (backupOne env backup_dir)).flatten)

/-! ## Session predicates -/

/-- The session invariant: a connected session holds a device identity. -/
def sessionInv (st : ManagerState) : Prop :=
  st.connected = true → st.device_info ≠ none

/-- The mode gate passed by flash/erase/format/backup: connected and in
fastboot mode. -/
def fastbootReady (st : ManagerState) : Prop :=
  st.connected = true ∧ ∃ di, st.device_info = some di ∧ di.state = DeviceState.FASTBOOT

/-- Outcome `erase_partition` reports for `p` once past the mode gate. -/
def eraseOk (env : Env) (p : String) : Bool :=
  match env.run ["fastboot", "erase", p] with
  | none => false
  | some r => if r.returncode = 0 then true else false

/-! ## Concrete worlds and session states used to evaluate the model -/

/-- A world where every external call raises and no file exists. -/
def envNone : Env :=
  { run := fun _ => none, fileExists := fun _ => false, fileHeader := fun _ => [] }

/-- A freshly detected fastboot device with the dataclass defaults
(non-A/B, no dynamic partitions). -/
def diFB : DeviceInfo := mkDeviceInfo "SER" DeviceState.FASTBOOT

/-- Session holding `diFB`. -/
def stFB : ManagerState := { device_info := some diFB, connected := true }

/-- An A/B fastboot device whose current slot is A. -/
def diAB : DeviceInfo :=
  { diFB with is_ab := true, slot_current := SlotInfo.A, slot_suffix := "_a" }

/-- Session holding `diAB`. -/
def stAB : ManagerState := { device_info := some diAB, connected := true }

/-- World for exercising a flash of `/d/boot.img` with an explicit slot:
the file exists, and the flash of the *unsuffixed* name succeeds. -/
def envC1 : Env :=
  { run := fun cmd => if cmd = ["fastboot", "flash", "boot", "/d/boot.img"] then some ⟨0, ""⟩ else none,
    fileExists := fun p => if p = "/d/boot.img" then true else false,
    fileHeader := fun _ => [] }

/-- World holding an existing file `/d/update.txt` whose header bytes and
extension fail every check of `validate_image_file`, and whose flash
command succeeds. -/
def envC2 : Env :=
  { run := fun cmd => if cmd = ["fastboot", "flash", "boot", "/d/update.txt"] then some ⟨0, ""⟩ else none,
    fileExists := fun p => if p = "/d/update.txt" then true else false,
    fileHeader := fun _ => [0, 0, 0, 0, 0, 0, 0, 0] }

/-- World for a full `unbrick_device` run: detection and reboot succeed,
`unlock_critical` succeeds, the erase of `boot` fails with exit code 1
while every other erase succeeds, and no stock image exists. -/
def env3 : Env :=
  { run := fun cmd =>
      if cmd = ["fastboot", "devices"] then some ⟨0, "SER\tfastboot"⟩
      else if cmd = ["fastboot", "reboot-bootloader"] then some ⟨0, ""⟩
      else if cmd = ["fastboot", "flashing", "unlock_critical"] then some ⟨0, ""⟩
      else if cmd = ["fastboot", "erase", "boot"] then some ⟨1, ""⟩
      else if cmd = ["fastboot", "erase", "recovery"] then some ⟨0, ""⟩
      else if cmd = ["fastboot", "erase", "system"] then some ⟨0, ""⟩
      else if cmd = ["fastboot", "erase", "vendor"] then some ⟨0, ""⟩
      else if cmd = ["fastboot", "erase", "cache"] then some ⟨0, ""⟩
      else if cmd = ["fastboot", "erase", "metadata"] then some ⟨0, ""⟩
      else none,
    fileExists := fun _ => false,
    fileHeader := fun _ => [] }

/-- World where `/d/recovery.img` exists and its flash (under the
unsuffixed name) succeeds. -/
def envC4 : Env :=
  { run := fun cmd => if cmd = ["fastboot", "flash", "recovery", "/d/recovery.img"] then some ⟨0, ""⟩ else none,
    fileExists := fun p => if p = "/d/recovery.img" then true else false,
    fileHeader := fun _ => [] }

/-- World where the flash of `/d/boot.img` succeeds but the post-flash
probes answer with empty output, so re-detection fails. -/
def envC6 : Env :=
  { run := fun cmd =>
      if cmd = ["fastboot", "flash", "boot", "/d/boot.img"] then some ⟨0, ""⟩
      else if cmd = ["fastboot", "devices"] then some ⟨0, ""⟩
      else if cmd = ["adb", "devices"] then some ⟨0, ""⟩
      else none,
    fileExists := fun p => if p = "/d/boot.img" then true else false,
    fileHeader := fun _ => [] }

/-- World whose partition-size report for `boot` carries a field that is
not a hexadecimal numeral. -/
def envC8 : Env :=
  { run := fun cmd =>
      if cmd = ["fastboot", "getvar", "partition-size:boot"] then some ⟨0, "partition-size:boot: zz"⟩
      else none,
    fileExists := fun _ => false,
    fileHeader := fun _ => [] }

/-- A step that succeeds, touches nothing, and issues no command. -/
def stepPass : Step := fun st => (true, st, [])

/-- A step that fails, leaving a marker in the trace. -/
def stepFail : Step := fun st => (false, st, [["step", "fail"]])

/-- A step whose marker command must never appear after an earlier
failure. -/
def stepNever : Step := fun st => (true, st, [["step", "never"]])

/-! ## Helper lemmas -/

theorem sessionInv_cleared (st : ManagerState) : sessionInv (clearedState st) := by
  intro h
  simp [clearedState] at h

theorem detectAdbPhase_inv (env : Env) (st : ManagerState) (tr : Trace) :
    sessionInv (detectAdbPhase env st tr).2.1 := by
  unfold sessionInv detectAdbPhase
  dsimp only
  repeat' split
  all_goals intro h
  all_goals simp_all [clearedState]

theorem detectDevice_inv (env : Env) (st : ManagerState) :
    sessionInv (detectDevice env st).2.1 := by
  unfold detectDevice
  dsimp only
  repeat' split
  all_goals first
    | exact detectAdbPhase_inv env st _
    | exact sessionInv_cleared st
    | (intro _; simp)

theorem detectAdbPhase_cases (env : Env) (st : ManagerState) (tr : Trace) :
    (detectAdbPhase env st tr).1 = true ∨ (detectAdbPhase env st tr).2.1 = clearedState st := by
  unfold detectAdbPhase
  dsimp only
  repeat' split
  all_goals simp

theorem detectDevice_cases (env : Env) (st : ManagerState) :
    (detectDevice env st).1 = true ∨ (detectDevice env st).2.1 = clearedState st := by
  unfold detectDevice
  dsimp only
  repeat' split
  all_goals first
    | exact detectAdbPhase_cases env st _
    | simp

theorem detectDevice_fail_clears (env : Env) (st : ManagerState)
    (h : (detectDevice env st).1 = false) :
    (detectDevice env st).2.1 = clearedState st := by
  rcases detectDevice_cases env st with h1 | h1
  · rw [h1] at h
    cases h
  · exact h1

theorem erase_partition_state (env : Env) (st : ManagerState) (p : String) :
    (erase_partition env st p).2.1 = st := by
  unfold erase_partition
  dsimp only
  repeat' split
  all_goals rfl

theorem format_partition_state (env : Env) (st : ManagerState) (p fs : String) :
    (format_partition env st p fs).2.1 = st := by
  unfold format_partition
  dsimp only
  repeat' split
  all_goals rfl

theorem unlock_critical_state (env : Env) (st : ManagerState) :
    (unlock_critical env st).2.1 = st := by
  unfold unlock_critical
  dsimp only
  repeat' split
  all_goals rfl

theorem backup_partitions_state (env : Env) (st : ManagerState) (dir : String) :
    (backup_partitions env st dir).2.1 = st := by
  unfold backup_partitions
  repeat' split
  all_goals rfl

theorem flash_partition_state (env : Env) (st : ManagerState) (part img : String)
    (slot : SlotInfo) (v : Bool) :
    (flash_partition env st part img slot v).2.1 = st ∨
    (flash_partition env st part img slot v).2.1 = (detectDevice env st).2.1 := by
  by_cases hcon : st.connected = false
  · left
    simp [flash_partition, hcon]
  · cases hdi : st.device_info with
    | none => left; simp [flash_partition, hcon, hdi]
    | some di =>
      by_cases hst : di.state ≠ DeviceState.FASTBOOT
      · left; simp [flash_partition, hcon, hdi, hst]
      · by_cases hex : env.fileExists img = false
        · left; simp [flash_partition, hcon, hdi, hst, hex]
        · cases hrun : env.run ["fastboot", "flash", resolvePartName di part slot, img] with
          | none => left; simp [flash_partition, hcon, hdi, hst, hex, hrun]
          | some r =>
            by_cases hrc : r.returncode ≠ 0
            · left; simp [flash_partition, hcon, hdi, hst, hex, hrun, hrc]
            · cases v with
              | false => left; simp [flash_partition, hcon, hdi, hst, hex, hrun, hrc]
              | true =>
                right
                rcases hdet : detectDevice env st with ⟨ok, st1, tr⟩
                cases ok with
                | false => simp [flash_partition, hcon, hdi, hst, hex, hrun, hrc, hdet]
                | true => simp [flash_partition, hcon, hdi, hst, hex, hrun, hrc, hdet]

theorem flash_partition_inv (env : Env) (st : ManagerState) (part img : String)
    (slot : SlotInfo) (v : Bool) (h : sessionInv st) :
    sessionInv (flash_partition env st part img slot v).2.1 := by
  rcases flash_partition_state env st part img slot v with he | he <;> rw [he]
  · exact h
  · exact detectDevice_inv env st

theorem flashWithCurrentSlot_inv (env : Env) (st : ManagerState) (part img : String)
    (h : sessionInv st) :
    sessionInv (flashWithCurrentSlot env st part img).2.1 := by
  unfold flashWithCurrentSlot
  cases hdi : st.device_info with
  | none => exact h
  | some di => exact flash_partition_inv env st part img _ true h

theorem rebootIssue_state (env : Env) (st : ManagerState) (cmd : List String) :
    (rebootIssue env st cmd).2.1 = st ∨
    (rebootIssue env st cmd).2.1 = (detectDevice env st).2.1 := by
  unfold rebootIssue
  cases hrun : env.run cmd with
  | none => left; rfl
  | some r =>
    right
    rcases hdet : detectDevice env st with ⟨ok, st1, tr⟩
    simp [hdet]

theorem reboot_to_inv (env : Env) (st : ManagerState) (target : String)
    (h : sessionInv st) :
    sessionInv (reboot_to env st target).2.1 := by
  have hIssue : ∀ cmd, sessionInv (rebootIssue env st cmd).2.1 := by
    intro cmd
    rcases rebootIssue_state env st cmd with he | he <;> rw [he]
    · exact h
    · exact detectDevice_inv env st
  unfold reboot_to
  repeat' split
  all_goals first
    | exact h
    | exact hIssue _
    | exact detectDevice_inv env st

theorem eraseCorruptLoop_state (env : Env) :
    ∀ (l : List String) (b : Bool) (st : ManagerState),
      (eraseCorruptLoop env l b st).2.1 = st := by
  intro l
  induction l with
  | nil => intro b st; rfl
  | cons p rest ih =>
    intro b st
    unfold eraseCorruptLoop
    rcases he : erase_partition env st p with ⟨ok, st1, tr1⟩
    have hst1 : st1 = st := by
      have := erase_partition_state env st p
      rw [he] at this
      exact this
    rcases hl : eraseCorruptLoop env rest (b && ok) st1 with ⟨r2, st2, tr2⟩
    have hst2 : st2 = st := by
      have h0 := ih (b && ok) st1
      rw [hl] at h0
      have h1 : st2 = st1 := by simpa using h0
      exact h1.trans hst1
    simp [he, hl, hst2]

theorem flashStockLoop_inv (env : Env) :
    ∀ (l : List (String × String)) (b : Bool) (st : ManagerState),
      sessionInv st → sessionInv (flashStockLoop env l b st).2.1 := by
  intro l
  induction l with
  | nil => intro b st h; exact h
  | cons hd rest ih =>
    intro b st h
    rcases hd with ⟨p, path⟩
    unfold flashStockLoop
    dsimp only
    split
    · rcases hf : flash_partition env st p path SlotInfo.UNKNOWN true with ⟨ok, st1, tr1⟩
      have h1 : sessionInv st1 := by
        have := flash_partition_inv env st p path SlotInfo.UNKNOWN true h
        rw [hf] at this
        exact this
      rcases hl : flashStockLoop env rest (b && ok) st1 with ⟨r2, st2, tr2⟩
      have h2 : sessionInv st2 := by
        have := ih (b && ok) st1 h1
        rw [hl] at this
        exact this
      simp [hf, hl]
      exact h2
    · exact ih b st h

theorem runSteps_inv (l : List Step)
    (hl : ∀ f ∈ l, ∀ s : ManagerState, sessionInv s → sessionInv (f s).2.1) :
    ∀ st : ManagerState, sessionInv st → sessionInv (runSteps l st).2.1 := by
  induction l with
  | nil => intro st h; exact h
  | cons f rest ih =>
    intro st h
    unfold runSteps
    rcases hf : f st with ⟨ok, st1, tr1⟩
    have h1 : sessionInv st1 := by
      have := hl f (by simp) st h
      rw [hf] at this
      exact this
    cases ok with
    | false =>
      simp [hf]
      exact h1
    | true =>
      rcases hr : runSteps rest st1 with ⟨ok2, st2, tr2⟩
      have h2 : sessionInv st2 := by
        have := ih (fun g hg s hs => hl g (by simp [hg]) s hs) st1 h1
        rw [hr] at this
        exact this
      simp [hf, hr]
      exact h2

theorem erase_partition_eq (env : Env) (st : ManagerState) (di : DeviceInfo) (p : String)
    (hcon : st.connected = true) (hdi : st.device_info = some di)
    (hst : di.state = DeviceState.FASTBOOT) :
    erase_partition env st p = (eraseOk env p, st, [["fastboot", "erase", p]]) := by
  unfold erase_partition eraseOk
  simp [hcon, hdi, hst]
  cases env.run ["fastboot", "erase", p] <;> rfl

theorem flash_cmd_head (env : Env) (st : ManagerState) (di : DeviceInfo)
    (part img : String) (slot : SlotInfo) (v : Bool)
    (hcon : st.connected = true) (hdi : st.device_info = some di)
    (hst : di.state = DeviceState.FASTBOOT) (hex : env.fileExists img = true) :
    (flash_partition env st part img slot v).2.2.head? =
      some ["fastboot", "flash", resolvePartName di part slot, img] := by
  unfold flash_partition
  simp only [hcon, hdi, hst, hex]
  cases hrun : env.run ["fastboot", "flash", resolvePartName di part slot, img] with
  | none => simp
  | some r =>
    by_cases hrc : r.returncode ≠ 0
    · simp [hrc]
    · cases v with
      | false => simp [hrc]
      | true =>
        rcases hdet : detectDevice env st with ⟨ok, st1, tr⟩
        cases ok with
        | false => simp [hrc, hdet]
        | true => simp [hrc, hdet]

theorem eraseCorruptLoop_eq (env : Env) (st : ManagerState) (di : DeviceInfo)
    (hcon : st.connected = true) (hdi : st.device_info = some di)
    (hst : di.state = DeviceState.FASTBOOT) :
    ∀ (l : List String) (b : Bool),
      eraseCorruptLoop env l b st =
        (b && l.all (fun p => eraseOk env p), st, l.map (fun p => ["fastboot", "erase", p])) := by
  intro l
  induction l with
  | nil => intro b; simp [eraseCorruptLoop]
  | cons p rest ih =>
    intro b
    unfold eraseCorruptLoop
    rw [erase_partition_eq env st di p hcon hdi hst]
    simp only [ih (b && eraseOk env p)]
    simp [Bool.and_assoc]

/-! ## Claims -/

/-- C5: every Flash, Erase or Format issued while the session is not in
fastboot mode (not connected, or the held identity's mode differs from
`FASTBOOT`) fails immediately, leaves the session untouched, and hands no
command to the adapter (`run_command` is never reached). -/
theorem c5_mode_gate (env : Env) (st : ManagerState) (part img fs : String)
    (slot : SlotInfo) (v : Bool)
    (hInv : sessionInv st)
    (hMode : ¬ fastbootReady st) :
    flash_partition env st part img slot v = (false, st, []) ∧
    erase_partition env st part = (false, st, []) ∧
    format_partition env st part fs = (false, st, []) := by
  refine ⟨?_, ?_, ?_⟩ <;>
  · cases hcon : st.connected with
    | false => simp [flash_partition, erase_partition, format_partition, hcon]
    | true =>
      obtain ⟨di, hdi⟩ := Option.ne_none_iff_exists'.mp (hInv hcon)
      have hst : di.state ≠ DeviceState.FASTBOOT := by
        intro h
        exact hMode ⟨hcon, di, hdi, h⟩
      simp [flash_partition, erase_partition, format_partition, hcon, hdi, hst]

/-- Witness for C5 at the freshly constructed (disconnected) session. -/
theorem c5_mode_gate_w :
    flash_partition envNone initState "boot" "/d/boot.img" SlotInfo.UNKNOWN true = (false, initState, []) ∧
    erase_partition envNone initState "boot" = (false, initState, []) ∧
    format_partition envNone initState "boot" "ext4" = (false, initState, []) :=
  c5_mode_gate envNone initState "boot" "/d/boot.img" "ext4" SlotInfo.UNKNOWN true
    (by intro h; simp [initState] at h)
    (by rintro ⟨hc, _⟩; simp [initState] at hc)

/-- C10: once the mode gate passes (connected, fastboot), the Python
return value of `backup_partitions` is `True` for every world — the
per-partition size-query, parse and fetch failures are all swallowed
inside the loop and never surface in the result — and the session state
is untouched. -/
theorem c10_backup_always_true (env : Env) (st : ManagerState) (di : DeviceInfo) (dir : String)
    (hcon : st.connected = true) (hdi : st.device_info = some di)
    (hst : di.state = DeviceState.FASTBOOT) :
    (backup_partitions env st dir).1 = true ∧ (backup_partitions env st dir).2.1 = st := by
  unfold backup_partitions
  simp [hcon, hdi, hst]

/-- Witness for C10 in the world where every adapter call raises: the
whole backup still reports `True`. -/
theorem c10_backup_always_true_w :
    (backup_partitions envNone stFB "/d/backup").1 = true ∧
    (backup_partitions envNone stFB "/d/backup").2.1 = stFB :=
  c10_backup_always_true envNone stFB diFB "/d/backup" rfl rfl rfl

/-- C8: in a backup iteration whose `partition-size` query completes but
whose size field does not parse as a hexadecimal integer, the only
command issued is the getvar itself — the streaming `fastboot fetch` is
never invoked. -/
theorem c8_size_parse_gate (env : Env) (dir p : String) (r : CmdResult)
    (hrun : env.run ["fastboot", "getvar", "partition-size:" ++ p] = some r)
    (hparse : parseHexInt (pyStrip (splitColonLast (pyStrip r.stdout))) = none) :
    backupOne env dir p = [["fastboot", "getvar", "partition-size:" ++ p]] := by
  unfold backupOne
  dsimp only
  rw [hrun]
  by_cases hrc : r.returncode = 0
  · by_cases hcolon : hasChar (pyStrip r.stdout) ':' = true
    · simp [hrc, hcolon, hparse]
    · simp [hrc, hcolon]
  · simp [hrc]

/-- Witness for C8: a size report whose field `zz` is not hexadecimal. -/
theorem c8_size_parse_gate_w :
    backupOne envC8 "/d/backup" "boot" = [["fastboot", "getvar", "partition-size:boot"]] :=
  c8_size_parse_gate envC8 "/d/backup" "boot" ⟨0, "partition-size:boot: zz"⟩
    (by decide) (by decide)

/-- C6: a flash with `verify=true` whose flash command completes with
exit code 0 but whose post-flash `detect_device` probe fails reports
failure, not success. -/
theorem c6_verify_failure (env : Env) (st : ManagerState) (di : DeviceInfo)
    (part img : String) (slot : SlotInfo) (r : CmdResult)
    (hcon : st.connected = true) (hdi : st.device_info = some di)
    (hst : di.state = DeviceState.FASTBOOT) (hex : env.fileExists img = true)
    (hrun : env.run ["fastboot", "flash", resolvePartName di part slot, img] = some r)
    (hrc : r.returncode = 0)
    (hdet : (detectDevice env st).1 = false) :
    (flash_partition env st part img slot true).1 = false := by
  unfold flash_partition
  simp only [hcon, hdi, hst, hex]
  rw [hrun]
  rcases hd : detectDevice env st with ⟨ok, st1, tr⟩
  rw [hd] at hdet
  simp only at hdet
  simp [hrc, hd, hdet]

/-- Witness for C6: the flash of `/d/boot.img` succeeds, but both
re-detection probes answer with empty output, so detection fails and the
flash is reported failed. -/
theorem c6_verify_failure_w :
    (flash_partition envC6 stFB "boot" "/d/boot.img" SlotInfo.UNKNOWN true).1 = false :=
  c6_verify_failure envC6 stFB diFB "boot" "/d/boot.img" SlotInfo.UNKNOWN ⟨0, ""⟩
    rfl rfl rfl (by decide) (by decide) rfl (by decide)

/-- C7: the step loop shared by the multi-step procedures (and
`unbrick_device` is literally this loop over its step list) executes
steps strictly in order and stops at the first failing step: whenever the
leading steps succeed and the next step fails, the run result, final
state and trace are already fixed — the trailing steps (`rest`) are never
invoked and contribute nothing. -/
theorem c7_strict_order :
    (∀ (env : Env) (st : ManagerState), unbrick_device env st = runSteps (unbrickSteps env) st) ∧
    ∀ (pre : List Step) (f : Step) (rest : List Step) (st st1 st2 : ManagerState)
      (tr1 tr2 : Trace),
      runSteps pre st = (true, st1, tr1) →
      f st1 = (false, st2, tr2) →
      runSteps (pre ++ f :: rest) st = (false, st2, tr1 ++ tr2) := by
  constructor
  · intro env st
    rfl
  · intro pre
    induction pre with
    | nil =>
      intro f rest st st1 st2 tr1 tr2 h1 h2
      rw [runSteps] at h1
      simp only [Prod.mk.injEq, true_and] at h1
      obtain ⟨hs, ht⟩ := h1
      subst hs
      subst ht
      rw [List.nil_append, runSteps, h2]
      simp
    | cons g pre ih =>
      intro f rest st st1 st2 tr1 tr2 h1 h2
      rcases hg : g st with ⟨ok0, sA, tA⟩
      cases ok0 with
      | false =>
        rw [runSteps, hg] at h1
        simp at h1
      | true =>
        rcases hp : runSteps pre sA with ⟨okp, sp, tp⟩
        rw [runSteps, hg] at h1
        dsimp only at h1
        rw [hp] at h1
        dsimp only at h1
        simp only [Prod.mk.injEq] at h1
        obtain ⟨hok, hsp, htr⟩ := h1
        subst hok
        subst hsp
        subst htr
        have hmid := ih f rest sA sp st2 tp tr2 hp h2
        rw [List.cons_append, runSteps, hg]
        dsimp only
        rw [hmid]
        simp [List.append_assoc]

/-- Witness for C7: a three-step list whose second step fails; the run
stops there, and the third step's marker command does not appear. -/
theorem c7_strict_order_w :
    runSteps ([stepPass] ++ stepFail :: [stepNever]) initState =
      (false, initState, [] ++ [["step", "fail"]]) :=
  c7_strict_order.2 [stepPass] stepFail [stepNever] initState initState initState
    [] [["step", "fail"]] rfl rfl

/-- C1 counterexample: on a non-A/B fastboot device an explicit slot
override B is ignored — the name flashed is `boot`, not `boot_b`: the
flash command actually issued carries the unsuffixed name. -/
theorem c1_counterexample :
    diFB.is_ab = false ∧
    resolvePartName diFB "boot" SlotInfo.B ≠ "boot_b" ∧
    flash_partition envC1 stFB "boot" "/d/boot.img" SlotInfo.B false =
      (true, stFB, [["fastboot", "flash", "boot", "/d/boot.img"]]) := by
  decide

/-- C1 amended: an explicit slot override (A or B) appends the `_a`/`_b`
suffix exactly when the device reports `is_ab`; on a non-A/B device the
override is silently dropped and the base name is used.  In either case
the flash command issued (whenever the mode and existence gates pass)
carries exactly the resolved name. -/
theorem c1_slot_override_amended (env : Env) (st : ManagerState) (di : DeviceInfo)
    (part img : String) (slot : SlotInfo) (v : Bool)
    (hs : slot ≠ SlotInfo.UNKNOWN) :
    (di.is_ab = true → resolvePartName di part slot = part ++ "_" ++ slotValue slot) ∧
    (di.is_ab = false → resolvePartName di part slot = part) ∧
    (st.connected = true → st.device_info = some di → di.state = DeviceState.FASTBOOT →
      env.fileExists img = true →
      (flash_partition env st part img slot v).2.2.head? =
        some ["fastboot", "flash", resolvePartName di part slot, img]) := by
  refine ⟨?_, ?_, ?_⟩
  · intro hab
    simp [resolvePartName, hs, hab]
  · intro hab
    unfold resolvePartName
    rw [if_neg (by simp [hab])]
    split <;> rfl
  · intro hcon hdi hst hex
    exact flash_cmd_head env st di part img slot v hcon hdi hst hex

/-- Witness for C1 amended, on the A/B device (suffix appended) and on
the non-A/B device (override dropped). -/
theorem c1_slot_override_amended_w :
    resolvePartName diAB "boot" SlotInfo.B = "boot" ++ "_" ++ slotValue SlotInfo.B ∧
    resolvePartName diFB "boot" SlotInfo.B = "boot" :=
  ⟨(c1_slot_override_amended envC1 stAB diAB "boot" "/d/boot.img" SlotInfo.B false
      (by decide)).1 rfl,
   (c1_slot_override_amended envC1 stFB diFB "boot" "/d/boot.img" SlotInfo.B false
      (by decide)).2.1 rfl⟩

/-- C2 counterexample: `/d/update.txt` exists but fails every check of
`validate_image_file` (no sparse/boot/gzip magic, extension `.txt`), yet
`flash_partition` issues the flash command for it and reports success —
the validator is never consulted. -/
theorem c2_counterexample :
    validate_image_file envC2 "/d/update.txt" = false ∧
    flash_partition envC2 stFB "boot" "/d/update.txt" SlotInfo.UNKNOWN false =
      (true, stFB, [["fastboot", "flash", "boot", "/d/update.txt"]]) := by
  decide

/-- C2 amended: a flash whose source image does not exist is rejected
without issuing any command; but format validation is never performed —
when the file exists the flash command is issued even when
`validate_image_file` rejects it, and the outcome is entirely independent
of the image's header bytes. -/
theorem c2_source_check_amended (env : Env) (st : ManagerState) (di : DeviceInfo)
    (part img : String) (slot : SlotInfo) (v : Bool)
    (hcon : st.connected = true) (hdi : st.device_info = some di)
    (hst : di.state = DeviceState.FASTBOOT) :
    (env.fileExists img = false → flash_partition env st part img slot v = (false, st, [])) ∧
    (env.fileExists img = true → validate_image_file env img = false →
      (flash_partition env st part img slot v).2.2.head? =
        some ["fastboot", "flash", resolvePartName di part slot, img]) ∧
    (∀ hdr : String → List Nat,
      flash_partition { env with fileHeader := hdr } st part img slot v =
        flash_partition env st part img slot v) := by
  refine ⟨?_, ?_, fun hdr => rfl⟩
  · intro hex
    simp [flash_partition, hcon, hdi, hst, hex]
  · intro hex _
    exact flash_cmd_head env st di part img slot v hcon hdi hst hex

/-- Witness for C2 amended: a missing file is rejected with an empty
trace; the existing-but-invalid `/d/update.txt` still gets its flash
command issued. -/
theorem c2_source_check_amended_w :
    flash_partition envC2 stFB "boot" "/missing.img" SlotInfo.UNKNOWN true = (false, stFB, []) ∧
    (flash_partition envC2 stFB "boot" "/d/update.txt" SlotInfo.UNKNOWN false).2.2.head? =
      some ["fastboot", "flash", resolvePartName diFB "boot" SlotInfo.UNKNOWN, "/d/update.txt"] :=
  ⟨(c2_source_check_amended envC2 stFB diFB "boot" "/missing.img" SlotInfo.UNKNOWN true
      rfl rfl rfl).1 (by decide),
   (c2_source_check_amended envC2 stFB diFB "boot" "/d/update.txt" SlotInfo.UNKNOWN false
      rfl rfl rfl).2.1 (by decide) (by decide)⟩

/-- C4 counterexample: on an A/B device whose current slot is A, a flash
with no slot override targets the bare base name — `recovery`, not
`recovery_a`; the issued command shows it. -/
theorem c4_counterexample :
    diAB.is_ab = true ∧
    diAB.slot_current = SlotInfo.A ∧
    resolvePartName diAB "recovery" SlotInfo.UNKNOWN ≠ "recovery_a" ∧
    flash_partition envC4 stAB "recovery" "/d/recovery.img" SlotInfo.UNKNOWN false =
      (true, stAB, [["fastboot", "flash", "recovery", "/d/recovery.img"]]) := by
  decide

/-- C4 amended: `flash_partition` itself never consults the current slot
— with no override the resolved name is always the bare base name.  The
current-slot suffix reaches an A/B flash only through the wrappers
`flash_system`/`flash_boot`/`flash_vendor`, which pass
`slot_current` as an explicit override when the device is A/B, and for
those the resolved name is the base name plus the current slot's suffix. -/
theorem c4_current_slot_amended (env : Env) (st : ManagerState) (di : DeviceInfo)
    (part img : String) :
    resolvePartName di part SlotInfo.UNKNOWN = part ∧
    (st.device_info = some di →
      flash_system env st img =
        flash_partition env st "system" img (if di.is_ab then di.slot_current else SlotInfo.UNKNOWN) true ∧
      flash_boot env st img =
        flash_partition env st "boot" img (if di.is_ab then di.slot_current else SlotInfo.UNKNOWN) true ∧
      flash_vendor env st img =
        flash_partition env st "vendor" img (if di.is_ab then di.slot_current else SlotInfo.UNKNOWN) true) ∧
    (di.is_ab = true → di.slot_current ≠ SlotInfo.UNKNOWN →
      resolvePartName di part di.slot_current = part ++ "_" ++ slotValue di.slot_current) := by
  refine ⟨?_, ?_, ?_⟩
  · unfold resolvePartName
    rw [if_neg (by simp)]
    split <;> rfl
  · intro hdi
    refine ⟨?_, ?_, ?_⟩ <;>
      simp [flash_system, flash_boot, flash_vendor, flashWithCurrentSlot, hdi]
  · intro hab hs
    simp [resolvePartName, hs, hab]

/-- Witness for C4 amended on the A/B device with current slot A. -/
theorem c4_current_slot_amended_w :
    resolvePartName diAB "recovery" SlotInfo.UNKNOWN = "recovery" ∧
    resolvePartName diAB "system" diAB.slot_current = "system" ++ "_" ++ slotValue diAB.slot_current ∧
    flash_system envC4 stAB "/d/system.img" =
      flash_partition envC4 stAB "system" "/d/system.img"
        (if diAB.is_ab then diAB.slot_current else SlotInfo.UNKNOWN) true :=
  ⟨(c4_current_slot_amended envC4 stAB diAB "recovery" "/d/system.img").1,
   (c4_current_slot_amended envC4 stAB diAB "system" "/d/system.img").2.2 rfl (by decide),
   ((c4_current_slot_amended envC4 stAB diAB "system" "/d/system.img").2.1 rfl).1⟩

/-- C3 amended: within the erase-corrupt-set fan-out a single partition's
failure does not abort the fan-out — every partition in the fixed set is
still attempted, in order, and the session is untouched — but the step's
aggregate outcome is the conjunction of the individual outcomes, so a
partial failure is returned as the step failing, which (by the strict
step ordering) aborts the parent `unbrick_device` procedure. -/
theorem c3_fanout_amended (env : Env) (st : ManagerState) (di : DeviceInfo)
    (hcon : st.connected = true) (hdi : st.device_info = some di)
    (hst : di.state = DeviceState.FASTBOOT) :
    erase_corrupt_partitions env st =
      (partitions_to_erase.all (fun p => eraseOk env p), st,
       partitions_to_erase.map (fun p => ["fastboot", "erase", p])) := by
  unfold erase_corrupt_partitions
  rw [eraseCorruptLoop_eq env st di hcon hdi hst]
  simp

/-- Witness for C3 amended in the unbrick world: the erase of `boot`
fails, yet all six partitions are attempted and the aggregate is false. -/
theorem c3_fanout_amended_w :
    erase_corrupt_partitions env3 (detectDevice env3 initState).2.1 =
      (partitions_to_erase.all (fun p => eraseOk env3 p),
       (detectDevice env3 initState).2.1,
       partitions_to_erase.map (fun p => ["fastboot", "erase", p])) :=
  c3_fanout_amended env3 (detectDevice env3 initState).2.1
    (mkDeviceInfo "SER" DeviceState.FASTBOOT) (by decide) (by decide) (by decide)

/-- C3 counterexample: in the world `env3` a full `unbrick_device` run
reaches the erase fan-out, the erase of `boot` fails while the remaining
five partitions are still attempted (best-effort inside the fan-out), and
then the parent procedure aborts: `unbrick_device` returns `False` and
the later top-level steps never run — the `format userdata` command of
step 6 is absent from the trace. -/
theorem c3_counterexample :
    eraseOk env3 "boot" = false ∧
    (unbrick_device env3 initState).1 = false ∧
    ["fastboot", "erase", "metadata"] ∈ (unbrick_device env3 initState).2.2 ∧
    ["fastboot", "format", "--ext4", "userdata"] ∉ (unbrick_device env3 initState).2.2 := by
  decide

theorem erase_corrupt_partitions_state (env : Env) (st : ManagerState) :
    (erase_corrupt_partitions env st).2.1 = st :=
  eraseCorruptLoop_state env partitions_to_erase true st

theorem unbrickStep_inv (env : Env) (f : Step) (hf : f ∈ unbrickSteps env) :
    ∀ s : ManagerState, sessionInv s → sessionInv (f s).2.1 := by
  intro s hs
  simp only [unbrickSteps, List.mem_cons, List.not_mem_nil, or_false] at hf
  rcases hf with rfl | rfl | rfl | rfl | rfl | rfl | rfl
  · exact detectDevice_inv env s
  · exact reboot_to_inv env s "bootloader" hs
  · rw [show ((fun st => unlock_critical env st) s).2.1 = s from unlock_critical_state env s]
    exact hs
  · rw [show ((fun st => erase_corrupt_partitions env st) s).2.1 = s from
      erase_corrupt_partitions_state env s]
    exact hs
  · exact flashStockLoop_inv env stockImages true s hs
  · rw [show ((fun st => format_partition env st "userdata" "ext4") s).2.1 = s from
      format_partition_state env s "userdata" "ext4"]
    exact hs
  · exact reboot_to_inv env s "system" hs

theorem unbrick_device_inv (env : Env) (st : ManagerState) (h : sessionInv st) :
    sessionInv (unbrick_device env st).2.1 :=
  runSteps_inv (unbrickSteps env) (fun f hf => unbrickStep_inv env f hf) st h

/-- C9: the session invariant "connected implies an identity is held" is
established by `__init__` and preserved by every modelled operation; in
particular `detect_device` on failure clears both fields, discarding any
previously held identity. -/
theorem c9_session_invariant :
    (initState.connected = false ∧ initState.device_info = none) ∧
    ∀ (env : Env) (st : ManagerState) (target part img fs dir : String)
      (slot : SlotInfo) (v : Bool),
      sessionInv st →
      ((detectDevice env st).1 = false →
        (detectDevice env st).2.1.connected = false ∧
        (detectDevice env st).2.1.device_info = none) ∧
      sessionInv (detectDevice env st).2.1 ∧
      sessionInv (reboot_to env st target).2.1 ∧
      sessionInv (flash_partition env st part img slot v).2.1 ∧
      sessionInv (erase_partition env st part).2.1 ∧
      sessionInv (format_partition env st part fs).2.1 ∧
      sessionInv (backup_partitions env st dir).2.1 ∧
      sessionInv (flash_recovery env st img).2.1 ∧
      sessionInv (flash_system env st img).2.1 ∧
      sessionInv (flash_boot env st img).2.1 ∧
      sessionInv (flash_vendor env st img).2.1 ∧
      sessionInv (unlock_critical env st).2.1 ∧
      sessionInv (erase_corrupt_partitions env st).2.1 ∧
      sessionInv (flash_stock_images env st).2.1 ∧
      sessionInv (unbrick_device env st).2.1 := by
  constructor
  · exact ⟨rfl, rfl⟩
  · intro env st target part img fs dir slot v h
    refine ⟨?_, ?_, ?_, ?_, ?_, ?_, ?_, ?_, ?_, ?_, ?_, ?_, ?_, ?_, ?_⟩
    · intro hfail
      rw [detectDevice_fail_clears env st hfail]
      exact ⟨rfl, rfl⟩
    · exact detectDevice_inv env st
    · exact reboot_to_inv env st target h
    · exact flash_partition_inv env st part img slot v h
    · rw [erase_partition_state env st part]
      exact h
    · rw [format_partition_state env st part fs]
      exact h
    · rw [backup_partitions_state env st dir]
      exact h
    · exact flash_partition_inv env st "recovery" img SlotInfo.UNKNOWN true h
    · exact flashWithCurrentSlot_inv env st "system" img h
    · exact flashWithCurrentSlot_inv env st "boot" img h
    · exact flashWithCurrentSlot_inv env st "vendor" img h
    · rw [unlock_critical_state env st]
      exact h
    · rw [erase_corrupt_partitions_state env st]
      exact h
    · exact flashStockLoop_inv env stockImages true st h
    · exact unbrick_device_inv env st h

/-- Witness for C9 in the world where every probe raises: detection from
the fastboot session fails, and the resulting state is fully cleared and
still satisfies the invariant. -/
theorem c9_session_invariant_w :
    sessionInv (detectDevice envNone stFB).2.1 ∧
    ((detectDevice envNone stFB).1 = false →
      (detectDevice envNone stFB).2.1.connected = false ∧
      (detectDevice envNone stFB).2.1.device_info = none) :=
  have h := c9_session_invariant.2 envNone stFB "system" "boot" "/d/boot.img" "ext4"
    "/d/backup" SlotInfo.UNKNOWN true (by intro hc; simp [stFB])
  ⟨h.2.1, h.1⟩
